import Mathlib

/-!
Shallow embedding of the epicnotes-validation-forms note editor and image
serving routes, together with proofs of the spec's claims about them.

The embedded source files are:
* `src/app/routes/users+/$username_+/notes.$noteId_.edit.tsx` — the note edit
  route: `loader`, `action` (hand-rolled validation), `NoteEdit`,
  `ErrorBoundary`.
* `src/unnamed/part_000` — the iteration of the same route that validates via
  the zod `NoteEditorSchema` and conform `parse`.
* `src/app/routes/resources+/images.$imageId.tsx` — the image serving route.

The mock database (`db.note.findFirst` / `db.note.update` /
`db.image.findFirst`) is embedded as a list of records; per the data model,
note ids are unique. Persistence calls performed by an action are recorded
explicitly so that "zero / exactly one persistence call" claims can be stated.
-/

namespace EpicNotes

/-- A note record of the Note Store (`db.note`). -/
structure Note where
  id : String
  title : String
  content : String
deriving DecidableEq

/-- `errors.fieldErrors` of the action in notes.$noteId_.edit.tsx:
one ordered error list per form field. -/
structure FieldErrors where
  title : List String
  content : List String
deriving DecidableEq

/-- `errors` value built by the action in notes.$noteId_.edit.tsx
(lines 42-48): form-level errors plus per-field errors. -/
structure ActionErrors where
  formErrors : List String
  fieldErrors : FieldErrors
deriving DecidableEq

/-- `const titleMaxLength = 1000` -/
def titleMaxLength : Nat := 1000

/-- `const contentMaxLength = 10000` -/
def contentMaxLength : Nat := 10000

/-- `'Title is Required'` (notes.$noteId_.edit.tsx line 51) -/
def titleRequiredMsg : String := "Title is Required"

/-- Template literal of line 55: `Title must be $\x7btitleMaxLength\x7d character or less`. -/
def titleTooLongMsg : String := "Title must be " ++ toString titleMaxLength ++ " character or less"

/-- `'Content is Required'` (notes.$noteId_.edit.tsx line 59) -/
def contentRequiredMsg : String := "Content is Required"

/-- Template literal of line 63: `Content must be $\x7bcontentMaxLength\x7d character or less`. -/
def contentTooLongMsg : String := "Content must be " ++ toString contentMaxLength ++ " character or less"

/-- The validation block of the action in notes.$noteId_.edit.tsx
(lines 42-64). The four `if` checks run in order and push onto the error
lists; note that line 63 of the source pushes the content-length message onto
`errors.fieldErrors.title`, not onto `content` — this embedding reproduces
that faithfully. -/
def actionValidate (title content : String) : ActionErrors :=
  { formErrors := []
    fieldErrors :=
      { title :=
          (if title = "" then [titleRequiredMsg] else []) ++
            (if title.length > titleMaxLength then [titleTooLongMsg] else []) ++
              (if content.length > contentMaxLength then [contentTooLongMsg] else [])
        content :=
          if content = "" then [contentRequiredMsg] else [] } }

/-- `hasErrors` of the action (line 66): some error list is non-empty. -/
def hasErrors (errors : ActionErrors) : Bool :=
  errors.formErrors.length > 0 ||
    (errors.fieldErrors.title.length > 0 || errors.fieldErrors.content.length > 0)

/-- The responses the action can produce: a thrown `invariantResponse`
failure, the `json({ errors }, { status: 400 })` payload, or the
`redirect(...)`. -/
inductive ActionResponse where
  | invariantFail (status : Nat) (message : String)
  | jsonErrors (status : Nat) (errors : ActionErrors)
  | redirect (location : String)
deriving DecidableEq

/-- `db.note.findFirst({ where: { id: { equals: noteId } } })`. -/
def findNoteById (store : List Note) (noteId : String) : Option Note :=
  store.find? (fun n => n.id == noteId)

/-- `db.note.update({ where: { id: { equals: noteId } }, data: { title, content } })`:
every record whose id matches is overwritten with the new title and content
(ids are unique in the store, so at most one record actually changes). -/
def updateNoteStore (store : List Note) (noteId title content : String) : List Note :=
  store.map (fun n => if n.id == noteId then { n with title := title, content := content } else n)

/-- Result of one invocation of the action: the response, the store after the
invocation, and the list of persistence calls `(noteId, title, content)` that
were performed. -/
structure ActionResult where
  response : ActionResponse
  store : List Note
  updateCalls : List (String × String × String)
deriving DecidableEq

/-- The `action` of notes.$noteId_.edit.tsx (lines 33-80). `formData.get`
returns a string or not-a-string (null / File), embedded as `Option String`;
a non-string triggers the 400 `invariantResponse`. Then the validation block
runs; on any error the 400 json payload is returned with no persistence;
otherwise `db.note.update` runs once and the action redirects to
`/users/$\x7busername\x7d/notes/$\x7bnoteId\x7d`. -/
def action (store : List Note) (username noteId : String)
    (titleField contentField : Option String) : ActionResult :=
  match titleField with
  | none => ⟨.invariantFail 400 "title is required", store, []⟩
  | some title =>
    match contentField with
    | none => ⟨.invariantFail 400 "content is required", store, []⟩
    | some content =>
      let errors := actionValidate title content
      if hasErrors errors then
        ⟨.jsonErrors 400 errors, store, []⟩
      else
        ⟨.redirect ("/users/" ++ username ++ "/notes/" ++ noteId),
          updateNoteStore store noteId title content,
          [(noteId, title, content)]⟩

/-- Result of the GET edit `loader` (notes.$noteId_.edit.tsx lines 13-27):
either the Response thrown by `invariantResponse(note, 'Note not found',
\x7b status: 404 \x7d)`, or the `json(\x7b note: ... \x7d)` data. -/
inductive EditLoaderResult where
  | errorResponse (status : Nat) (message : String)
  | noteData (title content : String)
deriving DecidableEq

/-- The GET edit `loader`: find the note by id; 404 if absent, otherwise
return its title and content. -/
def editLoader (store : List Note) (noteId : String) : EditLoaderResult :=
  match findNoteById store noteId with
  | none => .errorResponse 404 "Note not found"
  | some note => .noteData note.title note.content

/-- The route `ErrorBoundary` (notes.$noteId_.edit.tsx lines 145-155): for a
404 response it renders `No note with the id $\x7bnoteId\x7d`; other statuses
fall through to the general boundary (embedded as `none`). -/
def editErrorBoundary (status : Nat) (noteId : String) : Option String :=
  if status == 404 then some ("No note with the id " ++ noteId) else none

/-- What the `NoteEdit` component renders that the claims mention: the
`defaultValue` of the title and content inputs and the three error lists. -/
structure NoteEditView where
  titleDefault : String
  contentDefault : String
  titleErrors : List String
  contentErrors : List String
  formErrors : List String
deriving DecidableEq

/-- The `NoteEdit` component (notes.$noteId_.edit.tsx lines 94-143 /
263-346): the title input gets `defaultValue=\x7bdata.note.title\x7d`, the
content textarea gets `defaultValue=\x7bdata.note.content\x7d`; the error
lists come from `actionData` when its status is the 400 error payload and are
absent otherwise. -/
def renderNoteEdit (noteTitle noteContent : String)
    (actionData : Option ActionResponse) : NoteEditView :=
  match actionData with
  | some (.jsonErrors _ errors) =>
    { titleDefault := noteTitle
      contentDefault := noteContent
      titleErrors := errors.fieldErrors.title
      contentErrors := errors.fieldErrors.content
      formErrors := errors.formErrors }
  | _ =>
    { titleDefault := noteTitle
      contentDefault := noteContent
      titleErrors := []
      contentErrors := []
      formErrors := [] }

/-- `parse(formData, \x7b schema: NoteEditorSchema \x7d)` of
src/unnamed/part_000 (lines 35-48): the conform submission, with zod errors
keyed by field name and `value` present exactly when both fields parse. -/
structure ConformSubmission where
  value : Option (String × String)
  errorTitle : List String
  errorContent : List String
deriving DecidableEq

/-- `z.string().min(1)` default message. -/
def zodMinMsg : String := "String must contain at least 1 character(s)"

/-- `z.string().max(n)` default message for bound `n`. -/
def zodMaxMsg (n : Nat) : String :=
  "String must contain at most " ++ toString n ++ " character(s)"

/-- `NoteEditorSchema = z.object(\x7b title: z.string().min(1).max(1000),
content: z.string().min(1).max(10000) \x7d)` parsed by conform: each failed
check contributes a message under its own field's name. -/
def parseNoteEditorSchema (title content : String) : ConformSubmission :=
  let titleErrs :=
    (if title.length < 1 then [zodMinMsg] else []) ++
      (if title.length > titleMaxLength then [zodMaxMsg titleMaxLength] else [])
  let contentErrs :=
    (if content.length < 1 then [zodMinMsg] else []) ++
      (if content.length > contentMaxLength then [zodMaxMsg contentMaxLength] else [])
  { value := if titleErrs.isEmpty && contentErrs.isEmpty then some (title, content) else none
    errorTitle := titleErrs
    errorContent := contentErrs }

/-- An image record of the store (`db.image`). -/
structure ImageMeta where
  id : String
  filePath : String
  contentType : String
deriving DecidableEq

/-- `db.image.findFirst({ where: { id: { equals: imageId } } })`. -/
def findImageById (store : List ImageMeta) (imageId : String) : Option ImageMeta :=
  store.find? (fun i => i.id == imageId)

/-- The headers set by the image `loader` on success
(resources+/images.$imageId.tsx lines 27-32). -/
structure ImageHeaders where
  contentType : String
  contentLength : String
  contentDisposition : String
  cacheControl : String
deriving DecidableEq

/-- Result of the image `loader`: a thrown `invariantResponse` failure, a
failed `fs.promises.stat` (file missing on disk), or the 200 response with
its headers. -/
inductive ImageLoaderResult where
  | invariantFail (status : Nat) (message : String)
  | statError (filePath : String)
  | success (status : Nat) (headers : ImageHeaders)
deriving DecidableEq

/-- The image `loader` (resources+/images.$imageId.tsx lines 7-34). The
filesystem is embedded as `stat : String → Option Nat` giving each path's
byte size at read time. The first `invariantResponse(params.imageId,
'Invalid Image ID')` passes no status; `invariantResponse` itself lives in
app/utils/misc which is not among the source files — modelled from the spec:
a missing id "fails fast as a precondition violation (400-equivalent)", so
the default status is 400. The rest follows the source: 404 when the store
lookup fails, else stat the file and respond 200 with content-type,
content-length, content-disposition and cache-control headers. -/
def imagesLoader (store : List ImageMeta) (stat : String → Option Nat)
    (imageId? : Option String) : ImageLoaderResult :=
  match imageId? with
  | none => .invariantFail 400 "Invalid Image ID"
  | some imageId =>
    match findImageById store imageId with
    | none => .invariantFail 404 "Image Not Found"
    | some image =>
      match stat image.filePath with
      | none => .statError image.filePath
      | some size =>
        .success 200
          { contentType := image.contentType
            contentLength := toString size
            contentDisposition := "inline; filename=\"" ++ imageId ++ "\""
            cacheControl := "public, max-age=35136000, immutable" }

/-- Modelled from the spec: the feature-complete editor variant with image
upload is not among the files under src (the src variants submit only title
and content); the spec says "`image.bytes` if present must not exceed 3 MiB".
3 MiB as a byte count. -/
def imageMaxSize : Nat := 3 * 1024 * 1024

/-- Modelled from the spec: the image-size check of the edit-form validation.
`none` means no image bytes were uploaded; bytes over 3 MiB produce a
size-specific error, otherwise the check contributes no error. -/
def validateImageSize (imageBytes : Option Nat) : List String :=
  match imageBytes with
  | none => []
  | some size => if size > imageMaxSize then ["Image size must be less than 3MB"] else []

/-- The HTTP status carried by an action response, `none` for a redirect
(whose status the framework supplies). -/
def responseStatus : ActionResponse → Option Nat
  | .invariantFail s _ => some s
  | .jsonErrors s _ => some s
  | .redirect _ => none

/-- A concrete content string of length 10001 (one over `contentMaxLength`). -/
def longContent : String := String.mk (List.replicate 10001 'a')

/-! ## Helper lemmas -/

/-- `hasErrors` is exactly "some error list is non-empty". -/
theorem hasErrors_iff (e : ActionErrors) :
    hasErrors e = true ↔
      (e.formErrors ≠ [] ∨ e.fieldErrors.title ≠ [] ∨ e.fieldErrors.content ≠ []) := by
  simp [hasErrors, List.length_pos]

/-- Updating a note id and then looking it up returns the stored note with
the new title and content. -/
theorem findNoteById_updateNoteStore (store : List Note) (noteId title content : String) :
    findNoteById (updateNoteStore store noteId title content) noteId =
      (findNoteById store noteId).map
        (fun n => { n with title := title, content := content }) := by
  induction store with
  | nil => rfl
  | cons n rest ih =>
    simp only [findNoteById, updateNoteStore, List.map_cons] at ih ⊢
    by_cases h : (n.id == noteId) = true
    · simp [h]
    · have hb : (n.id == noteId) = false := by simpa using h
      simp only [hb, Bool.false_eq_true, if_false]
      rw [List.find?_cons_of_neg (p := fun m : Note => m.id == noteId) _ h,
        List.find?_cons_of_neg (p := fun m : Note => m.id == noteId) _ h]
      exact ih

theorem longContent_length : longContent.length = 10001 := by
  show (String.mk (List.replicate 10001 'a')).length = 10001
  rw [String.length_mk, List.length_replicate]

theorem longContent_ne_empty : longContent ≠ "" := by
  intro h
  have h2 := congrArg String.length h
  rw [longContent_length, String.length_empty] at h2
  exact absurd h2 (by decide)

/-! ## Claims -/

/-- C1: the claim says that a content string longer than 10000 characters
makes validation fail with an error recorded under the `content` field. On
the source this is false: line 63 of notes.$noteId_.edit.tsx pushes the
content-length message onto `errors.fieldErrors.title`. At title "Hello" and
a 10001-character content, validation does fail, but the `content` error list
is empty and the message sits in the `title` list — while the zod
`NoteEditorSchema` iteration (src/unnamed/part_000), whose message text
matches the intent, files it under `content`. -/
theorem C1_content_length_error_misfiled :
    hasErrors (actionValidate "Hello" longContent) = true ∧
    (actionValidate "Hello" longContent).fieldErrors.content = [] ∧
    (actionValidate "Hello" longContent).fieldErrors.title = [contentTooLongMsg] ∧
    (parseNoteEditorSchema "Hello" longContent).errorContent = [zodMaxMsg contentMaxLength] ∧
    (parseNoteEditorSchema "Hello" longContent).errorTitle = [] := by
  have h1 : ¬ (longContent = "") := longContent_ne_empty
  have h2 : longContent.length > contentMaxLength := by
    rw [longContent_length]; decide
  have h3 : ¬ (longContent.length < 1) := by
    rw [longContent_length]; decide
  have h4 : ¬ (("Hello" : String) = "") := by decide
  have h5 : ¬ (("Hello" : String).length > titleMaxLength) := by decide
  have h6 : ¬ (("Hello" : String).length < 1) := by decide
  refine ⟨?_, ?_, ?_, ?_, ?_⟩ <;>
    simp [actionValidate, hasErrors, parseNoteEditorSchema, h1, h2, h3, h4, h5, h6]

/-- C2: a submission with any non-empty error list performs zero persistence
calls and leaves the store unchanged; a submission with all error lists empty
performs exactly one persistence call, with the submitted values. -/
theorem C2_validate_then_commit (store : List Note) (username noteId title content : String) :
    (((actionValidate title content).formErrors ≠ [] ∨
        (actionValidate title content).fieldErrors.title ≠ [] ∨
          (actionValidate title content).fieldErrors.content ≠ []) →
      (action store username noteId (some title) (some content)).updateCalls = [] ∧
        (action store username noteId (some title) (some content)).store = store) ∧
    (((actionValidate title content).formErrors = [] ∧
        (actionValidate title content).fieldErrors.title = [] ∧
          (actionValidate title content).fieldErrors.content = []) →
      (action store username noteId (some title) (some content)).updateCalls =
        [(noteId, title, content)]) := by
  constructor
  · intro h
    have hh : hasErrors (actionValidate title content) = true :=
      (hasErrors_iff _).mpr h
    simp [action, hh]
  · intro h
    have hh : hasErrors (actionValidate title content) = false := by
      simp [hasErrors, h.1, h.2.1, h.2.2]
    simp [action, hh]

theorem C2_validate_then_commit_witness :
    (action [] "alice" "n1" (some "") (some "World")).updateCalls = [] ∧
      (action [] "alice" "n1" (some "Hello") (some "World")).updateCalls =
        [("n1", "Hello", "World")] :=
  ⟨((C2_validate_then_commit [] "alice" "n1" "" "World").1 (by decide)).1,
    (C2_validate_then_commit [] "alice" "n1" "Hello" "World").2 (by decide)⟩

/-- C3: for a note present in the store and a submission that validates, the
action rewrites that note's store entry to exactly the submitted title and
content and responds with a redirect to `/users/.../notes/...`. -/
theorem C3_valid_submission_updates_and_redirects
    (store : List Note) (username noteId title content : String) (note : Note)
    (hfound : findNoteById store noteId = some note)
    (hvalid : hasErrors (actionValidate title content) = false) :
    findNoteById (action store username noteId (some title) (some content)).store noteId =
      some { id := noteId, title := title, content := content } ∧
    (action store username noteId (some title) (some content)).response =
      .redirect ("/users/" ++ username ++ "/notes/" ++ noteId) := by
  have hid : note.id = noteId := by
    have hp := List.find?_some hfound
    exact eq_of_beq hp
  constructor
  · have hstore :
        (action store username noteId (some title) (some content)).store =
          updateNoteStore store noteId title content := by
      simp [action, hvalid]
    rw [hstore, findNoteById_updateNoteStore, hfound]
    simp [hid]
  · simp [action, hvalid]

theorem C3_valid_submission_updates_and_redirects_witness :
    findNoteById
        (action [⟨"n1", "old title", "old content"⟩] "alice" "n1"
          (some "Hello") (some "World")).store "n1" =
      some { id := "n1", title := "Hello", content := "World" } ∧
    (action [⟨"n1", "old title", "old content"⟩] "alice" "n1"
        (some "Hello") (some "World")).response =
      .redirect ("/users/" ++ "alice" ++ "/notes/" ++ "n1") :=
  C3_valid_submission_updates_and_redirects
    [⟨"n1", "old title", "old content"⟩] "alice" "n1" "Hello" "World"
    ⟨"n1", "old title", "old content"⟩ (by decide) (by decide)

/-- C4: a title of length 0 or over 1000 makes validation fail with an error
in the `title` field's list; a title of length 1 to 1000 contributes no title
error (neither title message appears in the `title` list, whatever the
content is). -/
theorem C4_title_validation (title content : String) :
    ((title.length = 0 ∨ title.length > titleMaxLength) →
      hasErrors (actionValidate title content) = true ∧
        (actionValidate title content).fieldErrors.title ≠ []) ∧
    (1 ≤ title.length → title.length ≤ titleMaxLength →
      titleRequiredMsg ∉ (actionValidate title content).fieldErrors.title ∧
        titleTooLongMsg ∉ (actionValidate title content).fieldErrors.title) := by
  constructor
  · rintro (h0 | hover)
    · have he : title = "" := by
        cases title with
        | mk data =>
          rw [String.length_mk] at h0
          rw [List.eq_nil_of_length_eq_zero h0]
      constructor
      · rw [hasErrors_iff]
        refine Or.inr (Or.inl ?_)
        simp [actionValidate, he]
      · simp [actionValidate, he]
    · constructor
      · rw [hasErrors_iff]
        refine Or.inr (Or.inl ?_)
        simp [actionValidate, hover]
      · simp [actionValidate, hover]
  · intro h1 hle
    have hne : ¬ (title = "") := by
      intro he
      rw [he, String.length_empty] at h1
      exact absurd h1 (by decide)
    have hnover : ¬ (title.length > titleMaxLength) := by omega
    have hmsg1 : titleRequiredMsg ≠ contentTooLongMsg := by decide
    have hmsg2 : titleTooLongMsg ≠ contentTooLongMsg := by decide
    by_cases hc : content.length > contentMaxLength <;>
      simp [actionValidate, hne, hnover, hmsg1, hmsg2, hc]

theorem C4_title_validation_witness :
    (hasErrors (actionValidate "" "World") = true ∧
      (actionValidate "" "World").fieldErrors.title ≠ []) ∧
    (titleRequiredMsg ∉ (actionValidate "Hello" "World").fieldErrors.title ∧
      titleTooLongMsg ∉ (actionValidate "Hello" "World").fieldErrors.title) :=
  ⟨(C4_title_validation "" "World").1 (Or.inl (by decide)),
    (C4_title_validation "Hello" "World").2 (by decide) (by decide)⟩

/-- The rendered form's title default is always the loaded note title. -/
theorem renderNoteEdit_titleDefault (t c : String) (ad : Option ActionResponse) :
    (renderNoteEdit t c ad).titleDefault = t := by
  cases ad with
  | none => rfl
  | some r => cases r <;> rfl

/-- The rendered form's content default is always the loaded note content. -/
theorem renderNoteEdit_contentDefault (t c : String) (ad : Option ActionResponse) :
    (renderNoteEdit t c ad).contentDefault = c := by
  cases ad with
  | none => rfl
  | some r => cases r <;> rfl

/-- C5: for every image id that resolves in the store to an image whose file
has byte size `size` at read time, the loader responds 200 with headers
exactly: content-type = the stored content type, content-length = the byte
size, content-disposition = inline; filename="imageId", and cache-control =
public, max-age=35136000, immutable. -/
theorem C5_image_success_headers
    (store : List ImageMeta) (stat : String → Option Nat)
    (imageId : String) (image : ImageMeta) (size : Nat)
    (hfound : findImageById store imageId = some image)
    (hstat : stat image.filePath = some size) :
    imagesLoader store stat (some imageId) =
      .success 200
        { contentType := image.contentType
          contentLength := toString size
          contentDisposition := "inline; filename=\"" ++ imageId ++ "\""
          cacheControl := "public, max-age=35136000, immutable" } := by
  simp [imagesLoader, hfound, hstat]

theorem C5_image_success_headers_witness :
    imagesLoader [⟨"x1", "/images/x1.jpg", "image/jpeg"⟩]
        (fun p => if p == "/images/x1.jpg" then some 12345 else none) (some "x1") =
      .success 200
        { contentType := "image/jpeg"
          contentLength := toString 12345
          contentDisposition := "inline; filename=\"" ++ "x1" ++ "\""
          cacheControl := "public, max-age=35136000, immutable" } :=
  C5_image_success_headers [⟨"x1", "/images/x1.jpg", "image/jpeg"⟩]
    (fun p => if p == "/images/x1.jpg" then some 12345 else none)
    "x1" ⟨"x1", "/images/x1.jpg", "image/jpeg"⟩ 12345 (by decide) (by decide)

/-- C6: a note id that does not resolve in the store makes the GET edit
loader produce the 404 response, and the route's error boundary renders
"No note with the id " followed by that very id. -/
theorem C6_unknown_note_404 (store : List Note) (noteId : String)
    (habsent : findNoteById store noteId = none) :
    editLoader store noteId = .errorResponse 404 "Note not found" ∧
    editErrorBoundary 404 noteId = some ("No note with the id " ++ noteId) := by
  constructor
  · simp [editLoader, habsent]
  · simp [editErrorBoundary]

theorem C6_unknown_note_404_witness :
    editLoader [] "n-unknown" = .errorResponse 404 "Note not found" ∧
    editErrorBoundary 404 "n-unknown" = some ("No note with the id " ++ "n-unknown") :=
  C6_unknown_note_404 [] "n-unknown" rfl

/-- C7: an image id that does not resolve in the store makes the loader fail
with 404 "Image Not Found"; a request carrying no image id at all fails with
the 400 precondition response, independently of the store and the filesystem
(so before any store lookup). -/
theorem C7_image_error_paths (store : List ImageMeta) (stat : String → Option Nat)
    (imageId : String)
    (habsent : findImageById store imageId = none) :
    imagesLoader store stat (some imageId) = .invariantFail 404 "Image Not Found" ∧
    (∀ (store2 : List ImageMeta) (stat2 : String → Option Nat),
      imagesLoader store2 stat2 none = .invariantFail 400 "Invalid Image ID") := by
  constructor
  · simp [imagesLoader, habsent]
  · intro store2 stat2
    rfl

theorem C7_image_error_paths_witness :
    imagesLoader [] (fun _ => none) (some "missing") = .invariantFail 404 "Image Not Found" ∧
    imagesLoader [] (fun _ => none) none = .invariantFail 400 "Invalid Image ID" :=
  ⟨(C7_image_error_paths [] (fun _ => none) "missing" rfl).1,
    (C7_image_error_paths [] (fun _ => none) "missing" rfl).2 [] (fun _ => none)⟩

/-- C8 (modelled from the spec, the image-upload variant being absent from
the source files): uploaded image bytes over 3 MiB produce a size-specific
error; bytes of 3 MiB or less pass, as does an absent image. -/
theorem C8_image_size_validation (n : Nat) :
    (imageMaxSize < n → validateImageSize (some n) ≠ []) ∧
    (n ≤ imageMaxSize → validateImageSize (some n) = []) ∧
    validateImageSize none = [] := by
  refine ⟨?_, ?_, rfl⟩
  · intro h
    simp [validateImageSize, h]
  · intro h
    have hn : ¬ (n > imageMaxSize) := by omega
    simp [validateImageSize, hn]

theorem C8_image_size_validation_witness :
    validateImageSize (some 3145729) ≠ [] ∧ validateImageSize (some 3145728) = [] :=
  ⟨(C8_image_size_validation 3145729).1 (by decide),
    (C8_image_size_validation 3145728).2.1 (by decide)⟩

/-- C9: round-trip — a note stored with some title and content loads for
edit as exactly that title and content, and the form rendered from the
loaded data pre-populates its title and content defaults with exactly those
values. -/
theorem C9_round_trip (store : List Note) (noteId : String) (note : Note)
    (hfound : findNoteById store noteId = some note)
    (actionData : Option ActionResponse) :
    editLoader store noteId = .noteData note.title note.content ∧
    (∀ t c, editLoader store noteId = .noteData t c →
      (renderNoteEdit t c actionData).titleDefault = note.title ∧
        (renderNoteEdit t c actionData).contentDefault = note.content) := by
  have hload : editLoader store noteId = .noteData note.title note.content := by
    simp [editLoader, hfound]
  refine ⟨hload, ?_⟩
  intro t c htc
  rw [hload] at htc
  injection htc with h1 h2
  subst h1
  subst h2
  exact ⟨renderNoteEdit_titleDefault _ _ _, renderNoteEdit_contentDefault _ _ _⟩

theorem C9_round_trip_witness :
    editLoader [⟨"n1", "T", "C"⟩] "n1" = .noteData "T" "C" ∧
    ((renderNoteEdit "T" "C" none).titleDefault = "T" ∧
      (renderNoteEdit "T" "C" none).contentDefault = "C") :=
  ⟨(C9_round_trip [⟨"n1", "T", "C"⟩] "n1" ⟨"n1", "T", "C"⟩ (by decide) none).1,
    (C9_round_trip [⟨"n1", "T", "C"⟩] "n1" ⟨"n1", "T", "C"⟩ (by decide) none).2
      "T" "C" (by decide)⟩

/-- C10 (implicit): the POST action never consults the Note Store and never
produces a 404: whatever the submission, its response status is never 404,
and a submission with valid title and content whose note id is unknown to
the store still triggers the update call and the success redirect. -/
theorem C10_action_skips_store_check
    (store : List Note) (username noteId title content : String)
    (habsent : findNoteById store noteId = none)
    (hvalid : hasErrors (actionValidate title content) = false) :
    (action store username noteId (some title) (some content)).response =
      .redirect ("/users/" ++ username ++ "/notes/" ++ noteId) ∧
    (action store username noteId (some title) (some content)).updateCalls =
      [(noteId, title, content)] ∧
    (∀ (t c : Option String),
      responseStatus (action store username noteId t c).response ≠ some 404) := by
  refine ⟨by simp [action, hvalid], by simp [action, hvalid], ?_⟩
  intro t c
  cases t with
  | none => simp [action, responseStatus]
  | some ti =>
    cases c with
    | none => simp [action, responseStatus]
    | some co =>
      by_cases hv : hasErrors (actionValidate ti co) = true
      · simp [action, responseStatus, hv]
      · simp [action, responseStatus, hv]

theorem C10_action_skips_store_check_witness :
    (action [] "alice" "ghost" (some "Hello") (some "World")).response =
      .redirect ("/users/" ++ "alice" ++ "/notes/" ++ "ghost") ∧
    (action [] "alice" "ghost" (some "Hello") (some "World")).updateCalls =
      [("ghost", "Hello", "World")] ∧
    (∀ (t c : Option String),
      responseStatus (action [] "alice" "ghost" t c).response ≠ some 404) :=
  C10_action_skips_store_check [] "alice" "ghost" "Hello" "World" rfl (by decide)

end EpicNotes
